import Mathlib

/-! MediHealth: appointment workflow and view renderer.

A shallow embedding of `src/app.js`.  The module's two closed-over variables
(`supabaseClient`, `currentUser`) and the parts of the page the handlers write to
are fields of an explicit `World` record which every handler takes and returns.
Every call made on the gateway handle is appended to `World.calls`; every `alert`
is appended to `World.alerts`.  The gateway's answers are arguments of the handlers.

Conventions.
* JavaScript strings are Lean `String`s; template literals are `++` chains that keep
  the source's line breaks and indentation.
* The page elements the handlers fetch with `getElementById` are taken to exist
  (the page markup is not part of the source file).
* A handler runs to completion before the next one starts (one operation in flight
  per user action); the 8 second timer of `showMessage` that hides the box again is
  not represented.
-/

namespace MediHealth

/-! ## String primitives of the host language -/

/-- White space and line terminators removed by `String.prototype.trim`. -/
def isJsSpace (c : Char) : Bool :=
  c.toNat = 0x09 || c.toNat = 0x0A || c.toNat = 0x0B || c.toNat = 0x0C || c.toNat = 0x0D ||
  c.toNat = 0x20 || c.toNat = 0xA0 || c.toNat = 0x1680 ||
  (decide (0x2000 ≤ c.toNat) && decide (c.toNat ≤ 0x200A)) ||
  c.toNat = 0x2028 || c.toNat = 0x2029 || c.toNat = 0x202F || c.toNat = 0x205F ||
  c.toNat = 0x3000 || c.toNat = 0xFEFF

/-- The method `s.trim()`: white space stripped from both ends. -/
def jsTrim (s : String) : String :=
  ⟨((s.data.dropWhile isJsSpace).reverse.dropWhile isJsSpace).reverse⟩

/-- The expression `v.trim() || null`: an empty trimmed value becomes `null`. -/
def trimOrNull (v : String) : Option String :=
  if jsTrim v = "" then none else some (jsTrim v)

/-- The method `s.replace(a, b)` with a one-character string pattern: only the first
occurrence is replaced. -/
def replaceFirstChar (a b : Char) : List Char → List Char
  | [] => []
  | c :: cs => if c = a then b :: cs else c :: replaceFirstChar a b cs

/-- The global hyphen replacement of `formatService` (first `replace`, flag `g`, by a
blank): every hyphen becomes a blank. -/
def replaceHyphens (cs : List Char) : List Char :=
  cs.map (fun c => if c = '-' then ' ' else c)

/-- The regex class `\w` without the unicode flag: `[A-Za-z0-9_]`. -/
def isWordChar (c : Char) : Bool :=
  c.isAlphanum || c = '_'

/-- The method `s.replace(/\b\w/g, c => c.toUpperCase())`.  A match is a word character
whose predecessor is not one (or that starts the string); `prevWord` tells whether the
character before the current position is a word character. -/
def upperAtBoundaries : Bool → List Char → List Char
  | _, [] => []
  | prevWord, c :: cs =>
      (if isWordChar c && !prevWord then c.toUpper else c) :: upperAtBoundaries (isWordChar c) cs

/-- The function `formatService(slug)`. -/
def formatService (slug : String) : String :=
  ⟨upperAtBoundaries false (replaceHyphens slug.data)⟩

/-! ## Health tips -/

/-- One entry of `healthTips`. -/
structure HealthTip where
  id : Nat
  category : String
  emoji : String
  title : String
  body : String
  deriving DecidableEq, Repr

/-- The constant `healthTips`. -/
def healthTips : List HealthTip := [
  { id := 1, category := "nutrition", emoji := "🥗", title := "Balanced Eating Habits",
    body := "Incorporate whole grains, lean proteins, and a variety of colourful vegetables into every meal for sustained energy and long-term wellbeing." },
  { id := 2, category := "fitness", emoji := "🏃", title := "30-Minute Daily Movement",
    body := "Just 30 minutes of moderate exercise daily can reduce heart disease risk by up to 35%, improve mood, and boost energy levels significantly." },
  { id := 3, category := "sleep", emoji := "😴", title := "Quality Sleep Matters",
    body := "Aim for 7–9 hours of quality sleep each night. Maintain a consistent schedule and limit blue light exposure before bed for better rest." },
  { id := 4, category := "mental-health", emoji := "🧘", title := "Mindfulness & Meditation",
    body := "Practising mindfulness for just 10 minutes a day can reduce stress hormones, improve focus, and enhance your overall emotional wellbeing." },
  { id := 5, category := "hydration", emoji := "💧", title := "Stay Hydrated Daily",
    body := "Drink at least 2 litres of water per day. Proper hydration supports digestion, clear skin, cognitive function, and physical performance." },
  { id := 6, category := "prevention", emoji := "🩺", title := "Regular Health Check-ups",
    body := "Schedule routine check-ups every 6–12 months. Early detection is the most effective strategy for preventing and managing health conditions." },
  { id := 7, category := "nutrition", emoji := "🍎", title := "Reduce Processed Sugar",
    body := "Cutting back on processed sugars can lower inflammation, improve dental health, stabilise energy levels, and reduce the risk of type 2 diabetes." },
  { id := 8, category := "fitness", emoji := "🚶", title := "Walk After Meals",
    body := "A short 10–15 minute walk after eating aids digestion, helps regulate blood sugar levels, and contributes to your daily movement goals." },
  { id := 9, category := "sleep", emoji := "🌙", title := "Create a Sleep Routine",
    body := "Establish a calming pre-sleep routine: dim the lights, avoid caffeine after 2pm, and keep your bedroom cool and quiet for optimal rest." },
  { id := 10, category := "mental-health", emoji := "📝", title := "Journaling for Wellbeing",
    body := "Writing down thoughts and feelings for just 5 minutes daily can improve mental clarity, reduce anxiety, and help process emotions constructively." }
]

/-- The categories carried by the filter chips: the fixed tip enumeration. -/
def tipCategories : List String :=
  ["nutrition", "fitness", "sleep", "mental-health", "hydration", "prevention"]

/-- The local `filtered` of `renderTips`: the tips that get a card. -/
def filteredTips (category : String) : List HealthTip :=
  if category = "all" then healthTips
  else healthTips.filter (fun t => t.category = category)

/-- The card template of `renderTips`, for one tip. -/
def tipCard (tip : HealthTip) : String :=
  "\n      <div class=\"tip-card scroll-reveal visible\" data-category=\"" ++
    tip.category ++
    "\">\n        <div class=\"tip-card__visual tip-card__visual--" ++
    tip.category ++
    "\">" ++
    tip.emoji ++
    "</div>\n        <div class=\"tip-card__body\">\n          <div class=\"tip-card__cat\">" ++
    String.mk (replaceFirstChar '-' ' ' tip.category.data) ++
    "</div>\n          <h4>" ++
    tip.title ++
    "</h4>\n          <p>" ++
    tip.body ++
    "</p>\n        </div>\n      </div>\n    "

/-! ## Data model -/

/-- The identity held in `currentUser` (`session.user`): id, email and the two profile
entries of `user_metadata` the module reads. -/
structure User where
  id : String
  email : String
  first_name : Option String
  last_name : Option String
  deriving DecidableEq, Repr

/-- The client handle returned by `supabase.createClient(url, key)`. -/
structure Handle where
  url : String
  key : String
  deriving DecidableEq, Repr

/-- The object `data` that `handleBooking` builds and inserts. -/
structure BookingRecord where
  first_name : String
  last_name : String
  email : String
  phone : Option String
  service : String
  appointment_date : String
  appointment_time : String
  notes : Option String
  user_id : Option String
  status : String
  deriving DecidableEq, Repr

/-- A stored appointment as the gateway returns it from `select('*')`: the inserted
columns plus the identifier assigned by the store.  Per the data model a record always
has a service, date, time and status, so these are plain strings. -/
structure Appointment where
  id : String
  first_name : String
  last_name : String
  email : String
  phone : Option String
  service : String
  appointment_date : String
  appointment_time : String
  notes : Option String
  user_id : Option String
  status : String
  deriving DecidableEq, Repr

/-- A call made on the gateway handle, with the arguments the module passes.
* `insert t rows` is `from(t).insert(rows)`;
* `select t cols col v ord asc` is `from(t).select(cols).eq(col, v).order(ord, ascending)`;
* `update t fields col v` is `from(t).update(fields).eq(col, v)`;
* `getSession`, `signInWithPassword`, `signUp` and `signOut` are the methods of `auth`;
  `signUp` carries the two entries of `options.data` and `options.emailRedirectTo`. -/
inductive GatewayCall where
  | insert (table : String) (rows : List BookingRecord)
  | select (table columns eqColumn eqValue orderColumn : String) (ascending : Bool)
  | update (table : String) (fields : List (String × String)) (eqColumn eqValue : String)
  | getSession
  | signInWithPassword (email password : String)
  | signUp (email password first_name last_name emailRedirectTo : String)
  | signOut
  deriving DecidableEq, Repr

/-- What an awaited gateway call comes back with: a result without error, an error
value carrying a message, or a rejection (the `catch` branch). -/
inductive Reply (α : Type) where
  | ok (data : α)
  | error (message : String)
  | threw
  deriving Repr

/-- The reply of a `select`: `data` may be absent (`null`). -/
abbrev QueryReply := Reply (Option (List Appointment))

/-- The `data` of a `signUp` answered without error: with a session (the user is
confirmed at once) it carries the user, otherwise confirmation is pending. -/
inductive SignUpResult where
  | withSession (user : User)
  | withoutSession
  deriving DecidableEq, Repr

/-- A message box element as `showMessage` leaves it. -/
structure MsgBox where
  className : String
  textContent : String
  display : String
  deriving DecidableEq, Repr

/-- The submit button of the booking form. -/
structure Button where
  disabled : Bool
  textContent : String
  deriving DecidableEq, Repr

/-- The values of the controls of the booking form, by element id. -/
structure BookingForm where
  bkFname : String
  bkLname : String
  bkEmail : String
  bkPhone : String
  bkService : String
  bkDate : String
  bkTime : String
  bkNotes : String
  deriving DecidableEq, Repr

/-- Module state, the page elements the handlers write, and the record of what was
asked of the gateway and of what was alerted. `bookingFormDefaults` holds the values
the page markup gives the booking controls, which `form.reset()` restores.  The fields
`savedUrl` and `savedKey` are the items `mh-sb-url` and `mh-sb-key` of `sessionStorage`,
`locationOrigin` is `window.location.origin`, `sbDot` is the class of the status dot,
`unhandledRejections` counts the promises of the module that were rejected with no
handler attached, and `submitAtInsert` holds, for every `insert` issued on the gateway
and in the order of issue, the state the submit button `bkSubmit` was in at that
moment. -/
structure World where
  supabaseClient : Option Handle
  currentUser : Option User
  bookingForm : BookingForm
  bookingFormDefaults : BookingForm
  bkMsg : MsgBox
  bkSubmit : Button
  manageEmail : String
  appointmentsList : String
  uAppointments : String
  tipsGrid : String
  calls : List GatewayCall
  alerts : List String
  sbUrl : String
  sbKey : String
  savedUrl : Option String
  savedKey : Option String
  sbDot : String
  sbText : String
  locationOrigin : String
  loginEmail : String
  loginPass : String
  loginMsg : MsgBox
  sigEmail : String
  sigPass : String
  sigFname : String
  sigLname : String
  signupMsg : MsgBox
  authPanelDisplay : String
  userPanelDisplay : String
  uAvatar : String
  uName : String
  uEmail : String
  unhandledRejections : Nat
  submitAtInsert : List Button
  deriving DecidableEq, Repr

/-! ## View renderer -/

/-- The function `renderTips(category)`: fills `tipsGrid` with one card per filtered tip. -/
def renderTips (w : World) (category : String) : World :=
  { w with tipsGrid := String.join ((filteredTips category).map tipCard) }

/-- The function `showMessage(el, type, text)`: the state it puts the element in. -/
def showMessage (type text : String) : MsgBox :=
  { className := "form-msg " ++ type, textContent := text, display := "block" }

/-- The row template of `lookupAppointments`, for one record. -/
def lookupRow (apt : Appointment) : String :=
  "\n        <div class=\"apt-row\" data-id=\"" ++
    apt.id ++
    "\">\n          <div class=\"apt-row__info\">\n            <strong>" ++
    formatService apt.service ++
    "</strong>\n            <small>" ++
    apt.appointment_date ++
    " at " ++
    apt.appointment_time ++
    " — " ++
    apt.status ++
    "</small>\n          </div>\n          <div class=\"apt-row__actions\">\n            <button class=\"apt-btn--reschedule\" onclick=\"MediHealth.rescheduleAppointment('" ++
    apt.id ++
    "')\">Reschedule</button>\n            <button class=\"apt-btn--cancel\" onclick=\"MediHealth.cancelAppointment('" ++
    apt.id ++
    "')\">Cancel</button>\n          </div>\n        </div>\n      "

/-- The row template of `loadUserAppointments`, for one record. -/
def userRow (apt : Appointment) : String :=
  "\n        <div class=\"apt-row\">\n          <div class=\"apt-row__info\">\n            <strong>" ++
    formatService apt.service ++
    "</strong>\n            <small>" ++
    apt.appointment_date ++
    " at " ++
    apt.appointment_time ++
    " — " ++
    apt.status ++
    "</small>\n          </div>\n        </div>\n      "

/-! ## Appointment workflow -/

/-- The function `loadUserAppointments()`. -/
def loadUserAppointments (w : World) (reply : QueryReply) : World :=
  match w.supabaseClient, w.currentUser with
  | some _, some user =>
    let w1 := { w with calls := w.calls ++
      [GatewayCall.select "appointments" "*" "user_id" user.id "appointment_date" true] }
    match reply with
    | .threw => { w1 with uAppointments := "<p class=\"muted\">Could not load appointments.</p>" }
    | .error _ => { w1 with uAppointments := "<p class=\"muted\">No upcoming appointments.</p>" }
    | .ok none => { w1 with uAppointments := "<p class=\"muted\">No upcoming appointments.</p>" }
    | .ok (some data) =>
      if data.length = 0 then
        { w1 with uAppointments := "<p class=\"muted\">No upcoming appointments.</p>" }
      else
        { w1 with uAppointments := String.join (data.map userRow) }
  | _, _ => w

/-- The object `data` of `handleBooking`, read off the form and the session. -/
def bookingData (w : World) : BookingRecord :=
  { first_name := jsTrim w.bookingForm.bkFname
    last_name := jsTrim w.bookingForm.bkLname
    email := jsTrim w.bookingForm.bkEmail
    phone := trimOrNull w.bookingForm.bkPhone
    service := w.bookingForm.bkService
    appointment_date := w.bookingForm.bkDate
    appointment_time := w.bookingForm.bkTime
    notes := trimOrNull w.bookingForm.bkNotes
    user_id := match w.currentUser with
      | some user => some user.id
      | none => none
    status := "confirmed" }

/-- The text of the demo-mode message of `handleBooking`. -/
def demoText (data : BookingRecord) : String :=
  "✓ Demo mode — Appointment booked for " ++
    data.first_name ++
    " on " ++
    data.appointment_date ++
    " at " ++
    data.appointment_time ++
    ". Connect Supabase to save to database."

/-- The text of the confirmation message of `handleBooking`. -/
def confirmedText (data : BookingRecord) : String :=
  "✓ Appointment confirmed for " ++
    data.first_name ++
    " " ++
    data.last_name ++
    " — " ++
    data.service ++
    " on " ++
    data.appointment_date ++
    " at " ++
    data.appointment_time ++
    "."

/-- The state of `handleBooking` at the moment the insert is awaited: first the button
is disabled and relabelled (`btn.disabled = true; btn.textContent = ...`), then the
insert is issued, with the button as it then is noted in `submitAtInsert`. -/
def bookingSubmitting (w : World) : World :=
  let w1 := { w with bkSubmit := { disabled := true, textContent := "Booking…" } }
  { w1 with
    calls := w1.calls ++ [GatewayCall.insert "appointments" [bookingData w]]
    submitAtInsert := w1.submitAtInsert ++ [w1.bkSubmit] }

/-- The success branch of `handleBooking` up to `e.target.reset()`: the confirmation is
shown and the form is back to its default values. -/
def bookingConfirmed (w : World) (data : BookingRecord) : World :=
  { w with
    bkMsg := showMessage "success" (confirmedText data)
    bookingForm := w.bookingFormDefaults }

/-- The body of the `try` of `handleBooking` after the insert has answered. -/
def bookingOutcome (w : World) (data : BookingRecord) (insertReply : Reply Unit)
    (reloadReply : QueryReply) : World :=
  match insertReply with
  | .error message =>
    { w with bkMsg := showMessage "error" ("Booking failed: " ++ message) }
  | .ok _ =>
    let w1 := bookingConfirmed w data
    match w1.currentUser with
    | some _ => loadUserAppointments w1 reloadReply
    | none => w1
  | .threw =>
    { w with bkMsg := showMessage "error" "An unexpected error occurred while booking." }

/-- The `finally` block of `handleBooking`: the button is enabled and relabelled. -/
def bookingFinally (w : World) : World :=
  { w with bkSubmit := { disabled := false, textContent := "Confirm Appointment" } }

/-- The handler `handleBooking(e)`.  `insertReply` answers the insert; `reloadReply`
answers the query of `loadUserAppointments`, should it be made. -/
def handleBooking (w : World) (insertReply : Reply Unit) (reloadReply : QueryReply) : World :=
  let data := bookingData w
  match w.supabaseClient with
  | none => { w with bkMsg := showMessage "success" (demoText data) }
  | some _ => bookingFinally (bookingOutcome (bookingSubmitting w) data insertReply reloadReply)

/-- The function `lookupAppointments()`. -/
def lookupAppointments (w : World) (reply : QueryReply) : World :=
  let email := jsTrim w.manageEmail
  if email = "" then
    { w with appointmentsList := "<p class=\"muted\">Please enter your email address.</p>" }
  else
    match w.supabaseClient with
    | none =>
      { w with appointmentsList :=
          "<p class=\"muted\">Connect to Supabase first to look up appointments.</p>" }
    | some _ =>
      let w1 := { w with calls := w.calls ++
        [GatewayCall.select "appointments" "*" "email" email "appointment_date" true] }
      match reply with
      | .threw =>
        { w1 with appointmentsList := "<p class=\"muted\">An error occurred during lookup.</p>" }
      | .error message =>
        { w1 with appointmentsList := "<p class=\"muted\">Error: " ++ message ++ "</p>" }
      | .ok none =>
        { w1 with appointmentsList :=
            "<p class=\"muted\">No appointments found for this email.</p>" }
      | .ok (some data) =>
        if data.length = 0 then
          { w1 with appointmentsList :=
              "<p class=\"muted\">No appointments found for this email.</p>" }
        else
          { w1 with appointmentsList := String.join (data.map lookupRow) }

/-- JavaScript truthiness of a prompt answer: `null` and the empty string are falsy. -/
def answered : Option String → Option String
  | some s => if s = "" then none else some s
  | none => none

/-- The function `rescheduleAppointment(id)`.  `newDate` and `newTime` are the answers
to the two prompts (`none` when dismissed). -/
def rescheduleAppointment (w : World) (id : String) (newDate newTime : Option String)
    (updateReply : Reply Unit) (lookupReply : QueryReply) : World :=
  match answered newDate, answered newTime, w.supabaseClient with
  | some date, some time, some _ =>
    let w1 := { w with calls := w.calls ++
      [GatewayCall.update "appointments"
        [("appointment_date", date), ("appointment_time", time), ("status", "rescheduled")]
        "id" id] }
    match updateReply with
    | .error message => { w1 with alerts := w1.alerts ++ ["Reschedule failed: " ++ message] }
    | .ok _ =>
      lookupAppointments
        { w1 with alerts := w1.alerts ++ ["Appointment rescheduled successfully."] } lookupReply
    | .threw => { w1 with alerts := w1.alerts ++ ["An error occurred."] }
  | _, _, _ => w

/-- The function `cancelAppointment(id)`.  `confirmed` is the answer to the dialog. -/
def cancelAppointment (w : World) (id : String) (confirmed : Bool)
    (updateReply : Reply Unit) (lookupReply : QueryReply) : World :=
  if !confirmed then w
  else
    match w.supabaseClient with
    | none => w
    | some _ =>
      let w1 := { w with calls := w.calls ++
        [GatewayCall.update "appointments" [("status", "cancelled")] "id" id] }
      match updateReply with
      | .error message => { w1 with alerts := w1.alerts ++ ["Cancellation failed: " ++ message] }
      | .ok _ =>
        lookupAppointments { w1 with alerts := w1.alerts ++ ["Appointment cancelled."] } lookupReply
      | .threw => { w1 with alerts := w1.alerts ++ ["An error occurred."] }

/-! ## Connection and authentication

The user panel shows `name.charAt(0).toUpperCase()`; the handlers that reach
`showUserPanel` take this host computation as the argument `initialOf`. -/

/-- The function `setStatus(state, text)`. -/
def setStatus (w : World) (state text : String) : World :=
  { w with sbDot := "sb-status__dot " ++ state, sbText := text }

/-- One entry of `[meta.first_name, meta.last_name].filter(Boolean)`: an absent or empty
entry is dropped. -/
def truthyEntry : Option String → List String
  | some s => if s = "" then [] else [s]
  | none => []

/-- The local `name` of `showUserPanel`: the truthy profile names joined by a blank, or
`User` when there is none. -/
def displayName (user : User) : String :=
  let name := " ".intercalate (truthyEntry user.first_name ++ truthyEntry user.last_name)
  if name = "" then "User" else name

/-- The function `showUserPanel(user)`; it ends by calling `loadUserAppointments`. -/
def showUserPanel (initialOf : String → String) (w : World) (user : User)
    (reloadReply : QueryReply) : World :=
  loadUserAppointments
    { w with
      authPanelDisplay := "none"
      userPanelDisplay := ""
      uAvatar := initialOf (displayName user)
      uName := displayName user
      uEmail := user.email } reloadReply

/-- The function `connectSupabase()`.  `createOk` tells whether `supabase.createClient`
returned (rather than threw); `sessionReply` answers `auth.getSession()`, whose promise
has a `then` callback and no rejection handler: `ok (some user)` is a stored session,
`ok none` and `error` leave `data.session` empty. -/
def connectSupabase (initialOf : String → String) (w : World) (createOk : Bool)
    (sessionReply : Reply (Option User)) (reloadReply : QueryReply) : World :=
  let url := jsTrim w.sbUrl
  let key := jsTrim w.sbKey
  if url = "" ∨ key = "" then
    { w with alerts := w.alerts ++ ["Please enter both Supabase URL and Anon Key."] }
  else if createOk = false then
    setStatus w "error" "Connection failed — check your credentials"
  else
    let w1 := setStatus { w with supabaseClient := some { url := url, key := key } }
      "connected" "Connected to Supabase ✓"
    let w2 := { w1 with
      savedUrl := some url
      savedKey := some key
      calls := w1.calls ++ [GatewayCall.getSession] }
    match sessionReply with
    | .ok (some user) =>
      setStatus (showUserPanel initialOf { w2 with currentUser := some user } user reloadReply)
        "connected" ("Connected — signed in as " ++ user.email)
    | .ok none => w2
    | .error _ => w2
    | .threw => { w2 with unhandledRejections := w2.unhandledRejections + 1 }

/-- The handler `handleLogin(e)`. -/
def handleLogin (initialOf : String → String) (w : World) (signInReply : Reply User)
    (reloadReply : QueryReply) : World :=
  match w.supabaseClient with
  | none =>
    { w with loginMsg :=
        showMessage "error" "Please connect to Supabase first (see Setup section)." }
  | some _ =>
    let email := jsTrim w.loginEmail
    let password := w.loginPass
    let w1 := { w with calls := w.calls ++ [GatewayCall.signInWithPassword email password] }
    match signInReply with
    | .error message => { w1 with loginMsg := showMessage "error" message }
    | .ok user =>
      let w2 := { w1 with
        currentUser := some user
        loginMsg := showMessage "success" ("Welcome back! Signed in as " ++ user.email) }
      setStatus (showUserPanel initialOf w2 user reloadReply)
        "connected" ("Connected — signed in as " ++ user.email)
    | .threw => { w1 with loginMsg := showMessage "error" "An unexpected error occurred." }

/-- The handler `handleSignup(e)`.  `signUpReply` answers `auth.signUp`, `signInReply`
the immediate `auth.signInWithPassword` tried when no session came back. -/
def handleSignup (initialOf : String → String) (w : World) (signUpReply : Reply SignUpResult)
    (signInReply : Reply User) (reloadReply : QueryReply) : World :=
  match w.supabaseClient with
  | none =>
    { w with signupMsg :=
        showMessage "error" "Please connect to Supabase first (see Setup section)." }
  | some _ =>
    let email := jsTrim w.sigEmail
    let password := w.sigPass
    let firstName := jsTrim w.sigFname
    let lastName := jsTrim w.sigLname
    let w1 := { w with calls := w.calls ++
      [GatewayCall.signUp email password firstName lastName w.locationOrigin] }
    match signUpReply with
    | .error message => { w1 with signupMsg := showMessage "error" message }
    | .ok (.withSession user) =>
      let w2 := { w1 with
        currentUser := some user
        signupMsg := showMessage "success"
          ("Account created! You're now signed in as " ++ email ++ ".") }
      setStatus (showUserPanel initialOf w2 user reloadReply)
        "connected" ("Connected — signed in as " ++ email)
    | .ok .withoutSession =>
      let w2 := { w1 with calls := w1.calls ++
        [GatewayCall.signInWithPassword email password] }
      match signInReply with
      | .error _ =>
        { w2 with
          signupMsg := showMessage "success"
            "Account created! If you receive a confirmation email, click the link then sign in. Otherwise, try signing in now." }
      | .ok user =>
        let w3 := { w2 with
          currentUser := some user
          signupMsg := showMessage "success"
            ("Account created and signed in as " ++ email ++ "!") }
        setStatus (showUserPanel initialOf w3 user reloadReply)
          "connected" ("Connected — signed in as " ++ email)
      | .threw => { w2 with signupMsg := showMessage "error" "An unexpected error occurred." }
    | .threw => { w1 with signupMsg := showMessage "error" "An unexpected error occurred." }

/-- The function `signOut()`.  The `await` of `auth.signOut()` stands outside any `try`:
when the call is rejected the function stops there and its promise is rejected with no
handler; a returned error value is not looked at. -/
def signOut (w : World) (reply : Reply Unit) : World :=
  match w.supabaseClient with
  | none => w
  | some _ =>
    let w1 := { w with calls := w.calls ++ [GatewayCall.signOut] }
    match reply with
    | .threw => { w1 with unhandledRejections := w1.unhandledRejections + 1 }
    | .ok _ =>
      setStatus { w1 with currentUser := none, authPanelDisplay := "", userPanelDisplay := "none" }
        "connected" "Connected to Supabase ✓"
    | .error _ =>
      setStatus { w1 with currentUser := none, authPanelDisplay := "", userPanelDisplay := "none" }
        "connected" "Connected to Supabase ✓"

/-! ## Sequences of operations -/

/-- One user action on the page: the values typed into the controls the handler reads,
the answers to its dialogs, and the answers of the gateway to the calls it makes. -/
inductive Op where
  | connect (sbUrl sbKey : String) (createOk : Bool) (sessionReply : Reply (Option User))
      (reloadReply : QueryReply)
  | book (form : BookingForm) (insertReply : Reply Unit) (reloadReply : QueryReply)
  | lookup (manageEmail : String) (reply : QueryReply)
  | reschedule (id : String) (newDate newTime : Option String) (updateReply : Reply Unit)
      (lookupReply : QueryReply)
  | cancel (id : String) (confirmed : Bool) (updateReply : Reply Unit)
      (lookupReply : QueryReply)
  | login (loginEmail loginPass : String) (signInReply : Reply User)
      (reloadReply : QueryReply)
  | signup (sigEmail sigPass sigFname sigLname : String) (signUpReply : Reply SignUpResult)
      (signInReply : Reply User) (reloadReply : QueryReply)
  | signOut (reply : Reply Unit)

/-- The effect of one user action: the controls take the typed values, then the handler
runs. -/
def step (initialOf : String → String) (w : World) : Op → World
  | .connect sbUrl sbKey createOk sessionReply reloadReply =>
    connectSupabase initialOf { w with sbUrl := sbUrl, sbKey := sbKey } createOk sessionReply
      reloadReply
  | .book form insertReply reloadReply =>
    handleBooking { w with bookingForm := form } insertReply reloadReply
  | .lookup manageEmail reply =>
    lookupAppointments { w with manageEmail := manageEmail } reply
  | .reschedule id newDate newTime updateReply lookupReply =>
    rescheduleAppointment w id newDate newTime updateReply lookupReply
  | .cancel id confirmed updateReply lookupReply =>
    cancelAppointment w id confirmed updateReply lookupReply
  | .login loginEmail loginPass signInReply reloadReply =>
    handleLogin initialOf { w with loginEmail := loginEmail, loginPass := loginPass }
      signInReply reloadReply
  | .signup sigEmail sigPass sigFname sigLname signUpReply signInReply reloadReply =>
    handleSignup initialOf
      { w with sigEmail := sigEmail, sigPass := sigPass, sigFname := sigFname,
               sigLname := sigLname }
      signUpReply signInReply reloadReply
  | .signOut reply => signOut w reply

/-- The state after a sequence of user actions. -/
def run (initialOf : String → String) (w : World) (ops : List Op) : World :=
  ops.foldl (step initialOf) w

/-- The state invariant: an active session comes with a configured handle. -/
def SessionHasHandle (w : World) : Prop :=
  w.currentUser ≠ none → w.supabaseClient ≠ none

/-- From `w` to `w'` a configured handle stays configured, and the session is either
the one of `w`, or none, or held under a configured handle. -/
def Advances (w w' : World) : Prop :=
  (w.supabaseClient ≠ none → w'.supabaseClient ≠ none) ∧
  (w'.currentUser = w.currentUser ∨ w'.currentUser = none ∨ w'.supabaseClient ≠ none)

/-- A stand-in for the host's `name.charAt(0).toUpperCase()` on ASCII names. -/
def asciiInitial (name : String) : String :=
  ⟨(name.data.take 1).map Char.toUpper⟩

/-! ## Observations used by the statements -/

/-- The string `t` contains `s` as a contiguous piece. -/
def Contains (t s : String) : Prop :=
  ∃ a b : String, t = a ++ s ++ b

/-- Whether a gateway call is an update. -/
def isUpdate : GatewayCall → Bool
  | .update _ _ _ _ => true
  | _ => false

/-- Whether a gateway call is an insert. -/
def isInsert : GatewayCall → Bool
  | .insert _ _ => true
  | _ => false

/-- The queries keyed by owner (`user_id`) among a list of gateway calls. -/
def ownerQueries (cs : List GatewayCall) : List GatewayCall :=
  cs.filter (fun c => match c with
    | .select _ _ eqColumn _ _ _ => eqColumn = "user_id"
    | _ => false)

/-- The appointment dates a gateway call writes to the store. -/
def datesWritten : GatewayCall → List String
  | .insert _ rows => rows.map (fun r => r.appointment_date)
  | .update _ fields _ _ =>
      (fields.filter (fun f => f.1 = "appointment_date")).map (fun f => f.2)
  | .select _ _ _ _ _ _ => []
  | .getSession => []
  | .signInWithPassword _ _ => []
  | .signUp _ _ _ _ _ => []
  | .signOut => []

/-- Words joined by a separator, as the claim about slugs describes them. -/
def joinWords (sep : String) : List String → String
  | [] => ""
  | [w] => w
  | w :: v :: ws => w ++ sep ++ joinWords sep (v :: ws)

/-- A word with its first letter upper-cased and every other character unchanged. -/
def capitalize (w : String) : String :=
  match w.data with
  | [] => ""
  | c :: cs => ⟨c.toUpper :: cs⟩

/-- A non-empty word of lowercase ASCII letters. -/
def IsLowerWord (w : String) : Prop :=
  w ≠ "" ∧ ∀ c ∈ w.data, c.isLower = true

/-- The calls `lookupAppointments` makes on the gateway from state `w`. -/
def lookupCalls (w : World) : List GatewayCall :=
  if jsTrim w.manageEmail = "" then []
  else
    match w.supabaseClient with
    | none => []
    | some _ =>
      [GatewayCall.select "appointments" "*" "email" (jsTrim w.manageEmail) "appointment_date" true]

/-- The markup of the "no appointments found" state of the lookup list. -/
def noAppointmentsFound : String :=
  "<p class=\"muted\">No appointments found for this email.</p>"

/-- The lookup list shows an error: the markup written on a returned error (with the
gateway's message) or in the `catch` branch. -/
def IsLookupError (html : String) : Prop :=
  html = "<p class=\"muted\">An error occurred during lookup.</p>" ∨
  ∃ message : String, html = "<p class=\"muted\">Error: " ++ message ++ "</p>"

/-- A booking form with every control empty. -/
def emptyForm : BookingForm :=
  { bkFname := "", bkLname := "", bkEmail := "", bkPhone := "", bkService := "",
    bkDate := "", bkTime := "", bkNotes := "" }

/-- The module as first evaluated (`supabaseClient = null`, `currentUser = null`) on a
page whose controls and containers are empty. -/
def initialWorld : World :=
  { supabaseClient := none
    currentUser := none
    bookingForm := emptyForm
    bookingFormDefaults := emptyForm
    bkMsg := { className := "form-msg", textContent := "", display := "none" }
    bkSubmit := { disabled := false, textContent := "Confirm Appointment" }
    manageEmail := ""
    appointmentsList := ""
    uAppointments := ""
    tipsGrid := ""
    calls := []
    alerts := []
    sbUrl := ""
    sbKey := ""
    savedUrl := none
    savedKey := none
    sbDot := "sb-status__dot"
    sbText := ""
    locationOrigin := "https://medihealth.example"
    loginEmail := ""
    loginPass := ""
    loginMsg := { className := "form-msg", textContent := "", display := "none" }
    sigEmail := ""
    sigPass := ""
    sigFname := ""
    sigLname := ""
    signupMsg := { className := "form-msg", textContent := "", display := "none" }
    authPanelDisplay := ""
    userPanelDisplay := "none"
    uAvatar := ""
    uName := ""
    uEmail := ""
    unhandledRejections := 0
    submitAtInsert := [] }

/-- The booking form of the scenario in the specification, typed with stray blanks
around the first name. -/
def adaForm : BookingForm :=
  { bkFname := " Ada ", bkLname := "Lovelace", bkEmail := "ada@example.org", bkPhone := "",
    bkService := "general-checkup", bkDate := "2025-06-01", bkTime := "10:00", bkNotes := "" }

/-- The page with the scenario's booking form filled in, no gateway configured. -/
def adaWorld : World :=
  { initialWorld with bookingForm := adaForm }

/-- A signed-in identity. -/
def adaUser : User :=
  { id := "u-1", email := "ada@example.org", first_name := some "Ada", last_name := none }

/-- The scenario's page once a gateway handle is configured, `ada@example.org` typed in
the lookup field. -/
def connectedWorld : World :=
  { adaWorld with
    supabaseClient := some { url := "https://example.supabase.co", key := "anon" }
    manageEmail := "ada@example.org" }

/-- The connected page with a session active. -/
def signedInWorld : World :=
  { connectedWorld with currentUser := some adaUser }

/-- A stored appointment with the given id and date. -/
def sampleAppointment (id date : String) : Appointment :=
  { id := id, first_name := "Ada", last_name := "Lovelace", email := "ada@example.org",
    phone := none, service := "general-checkup", appointment_date := date,
    appointment_time := "10:00", notes := none, user_id := none, status := "confirmed" }

/-! ## Lemmas on the string primitives -/

theorem isWordChar_of_isLower {c : Char} (h : c.isLower = true) : isWordChar c = true := by
  simp [isWordChar, Char.isAlphanum, Char.isAlpha, h]

theorem ne_hyphen_of_isLower {c : Char} (h : c.isLower = true) : c ≠ '-' := by
  rintro rfl
  revert h
  decide

theorem replaceHyphens_append (a b : List Char) :
    replaceHyphens (a ++ b) = replaceHyphens a ++ replaceHyphens b := by
  simp [replaceHyphens]

theorem replaceHyphens_lower (cs : List Char) (h : ∀ c ∈ cs, c.isLower = true) :
    replaceHyphens cs = cs := by
  induction cs with
  | nil => rfl
  | cons c cs ih =>
    have hc : c ≠ '-' := ne_hyphen_of_isLower (h c (List.mem_cons_self _ _))
    have := ih (fun d hd => h d (List.mem_cons_of_mem _ hd))
    simp only [replaceHyphens, List.map_cons] at this ⊢
    simp [hc, this]

theorem upperAtBoundaries_length (b : Bool) (cs : List Char) :
    (upperAtBoundaries b cs).length = cs.length := by
  induction cs generalizing b with
  | nil => rfl
  | cons c cs ih => simp [upperAtBoundaries, ih]

theorem upperAtBoundaries_lower_append (cs rest : List Char)
    (h : ∀ c ∈ cs, c.isLower = true) :
    upperAtBoundaries true (cs ++ rest) = cs ++ upperAtBoundaries true rest := by
  induction cs with
  | nil => rfl
  | cons c cs ih =>
    have hc := isWordChar_of_isLower (h c (List.mem_cons_self _ _))
    simp [upperAtBoundaries, hc, ih (fun d hd => h d (List.mem_cons_of_mem _ hd))]

theorem upperAtBoundaries_word_append (c : Char) (cs rest : List Char)
    (h : ∀ d ∈ c :: cs, d.isLower = true) :
    upperAtBoundaries false (c :: cs ++ rest) = c.toUpper :: cs ++ upperAtBoundaries true rest := by
  have hc := isWordChar_of_isLower (h c (List.mem_cons_self _ _))
  simp [upperAtBoundaries, hc,
    upperAtBoundaries_lower_append cs rest (fun d hd => h d (List.mem_cons_of_mem _ hd))]

theorem upperAtBoundaries_blank (rest : List Char) :
    upperAtBoundaries true (' ' :: rest) = ' ' :: upperAtBoundaries false rest := by
  simp [upperAtBoundaries, isWordChar, Char.isAlphanum, Char.isAlpha, Char.isUpper, Char.isLower,
    Char.isDigit]

theorem capitalize_data (c : Char) (cs : List Char) :
    (capitalize ⟨c :: cs⟩).data = c.toUpper :: cs := rfl

theorem formatService_joinWords (ws : List String) (hne : ws ≠ [])
    (hw : ∀ w ∈ ws, IsLowerWord w) :
    upperAtBoundaries false (replaceHyphens (joinWords "-" ws).data) =
      (joinWords " " (ws.map capitalize)).data := by
  induction ws with
  | nil => exact absurd rfl hne
  | cons w ws ih =>
    obtain ⟨hw0, hwl⟩ := hw w (List.mem_cons_self _ _)
    obtain ⟨wd⟩ := w
    cases wd with
    | nil => exact absurd rfl hw0
    | cons c cs =>
      have hwl2 : ∀ d ∈ c :: cs, d.isLower = true := hwl
      cases ws with
      | nil =>
        have := upperAtBoundaries_word_append c cs [] hwl2
        simp only [List.append_nil] at this
        show upperAtBoundaries false (replaceHyphens (c :: cs)) = (capitalize ⟨c :: cs⟩).data
        rw [replaceHyphens_lower _ hwl2, this, capitalize_data]
        simp [upperAtBoundaries]
      | cons v vs =>
        have ih2 := ih (by simp) (fun u hu => hw u (List.mem_cons_of_mem _ hu))
        simp only [joinWords, List.map_cons, String.data_append, replaceHyphens_append,
          replaceHyphens_lower _ hwl2, capitalize_data]
        have hsep : replaceHyphens ("-" : String).data = [' '] := by decide
        rw [hsep, List.append_assoc, upperAtBoundaries_word_append c cs _ hwl2]
        simp only [List.singleton_append, upperAtBoundaries_blank]
        rw [ih2]
        simp [joinWords, List.map_cons]

/-! ## Containment of strings -/

theorem Contains.mid (a s b : String) : Contains (a ++ s ++ b) s :=
  ⟨a, b, rfl⟩

theorem Contains.append_right {t s : String} (h : Contains t s) (u : String) :
    Contains (t ++ u) s := by
  obtain ⟨a, b, rfl⟩ := h
  exact ⟨a, b ++ u, by simp [String.append_assoc]⟩

theorem Contains.append_left {t s : String} (h : Contains t s) (u : String) :
    Contains (u ++ t) s := by
  obtain ⟨a, b, rfl⟩ := h
  exact ⟨u ++ a, b, by simp [String.append_assoc]⟩

theorem Contains.tail (a s : String) : Contains (a ++ s) s :=
  ⟨a, "", by simp⟩

/-! ## View renderer: tips and service names -/

theorem filteredTips_of_mem {c : String} (hc : c ∈ tipCategories) :
    filteredTips c = healthTips.filter (fun t => t.category = c) := by
  have hne : c ≠ "all" := by
    rintro rfl
    revert hc
    decide
  simp [filteredTips, hne]

theorem join_cons (a : String) (l : List String) :
    String.join (a :: l) = a ++ String.join l := by
  apply String.ext
  simp [String.data_join]

theorem contains_join {l : List String} {t s : String} (ht : t ∈ l) (h : Contains t s) :
    Contains (String.join l) s := by
  induction l with
  | nil => exact absurd ht (List.not_mem_nil t)
  | cons a l ih =>
    rw [join_cons]
    rcases List.mem_cons.mp ht with rfl | hmem
    · exact Contains.append_right h _
    · exact Contains.append_left (ih hmem) _

theorem tipCard_contains (tip : HealthTip) :
    Contains (tipCard tip) tip.category ∧
    Contains (tipCard tip) tip.emoji ∧
    Contains (tipCard tip) tip.title ∧
    Contains (tipCard tip) tip.body := by
  unfold tipCard
  refine ⟨?_, ?_, ?_, ?_⟩
  · iterate 10 apply Contains.append_right
    exact Contains.mid _ _ _
  · iterate 6 apply Contains.append_right
    exact Contains.mid _ _ _
  · iterate 2 apply Contains.append_right
    exact Contains.mid _ _ _
  · exact Contains.mid _ _ _

set_option maxRecDepth 100000 in
theorem tipCard_nodup : (healthTips.map tipCard).Nodup := by
  decide

/-- C8: for a category `c` of the fixed enumeration the tips rendered by `renderTips c` are
the tips of `healthTips` whose category is `c` (a sublist of `healthTips`, hence in their
original relative order, with a tip present exactly when its category is `c`), one card
per tip; `renderTips "all"` renders all ten tips in their original order.  Each card
carries the category, glyph, title and body of its tip, the cards of distinct tips are
distinct, the title and body of every tip of category `c` appear in the markup written,
and the markup does not depend on the state of the page or of the session. -/
theorem renderTips_category_subsequence (w : World) (c : String) (hc : c ∈ tipCategories) :
    filteredTips c = healthTips.filter (fun t => t.category = c) ∧
    List.Sublist (filteredTips c) healthTips ∧
    (∀ t ∈ healthTips, t ∈ filteredTips c ↔ t.category = c) ∧
    (renderTips w c).tipsGrid = String.join ((filteredTips c).map tipCard) ∧
    ((filteredTips c).map tipCard).length = (filteredTips c).length ∧
    filteredTips "all" = healthTips ∧
    (renderTips w "all").tipsGrid = String.join (healthTips.map tipCard) ∧
    healthTips.length = 10 ∧
    (∀ t : HealthTip, Contains (tipCard t) t.category ∧ Contains (tipCard t) t.emoji ∧
      Contains (tipCard t) t.title ∧ Contains (tipCard t) t.body) ∧
    (healthTips.map tipCard).Nodup ∧
    (∀ t ∈ healthTips, t.category = c →
      Contains (renderTips w c).tipsGrid t.title ∧ Contains (renderTips w c).tipsGrid t.body) ∧
    (∀ t ∈ healthTips,
      Contains (renderTips w "all").tipsGrid t.title ∧
      Contains (renderTips w "all").tipsGrid t.body) ∧
    (∀ w2 : World, (renderTips w2 c).tipsGrid = (renderTips w c).tipsGrid) := by
  have hf := filteredTips_of_mem hc
  have hmemf : ∀ t ∈ healthTips, t ∈ filteredTips c ↔ t.category = c := by
    intro t ht
    rw [hf]
    simp [List.mem_filter, ht]
  refine ⟨hf, ?_, hmemf, rfl, List.length_map _ _, rfl, rfl, rfl, tipCard_contains,
    tipCard_nodup, ?_, ?_, fun _ => rfl⟩
  · rw [hf]
    exact List.filter_sublist _
  · intro t ht hcat
    have hcard : tipCard t ∈ (filteredTips c).map tipCard :=
      List.mem_map_of_mem tipCard ((hmemf t ht).mpr hcat)
    exact ⟨contains_join hcard (tipCard_contains t).2.2.1,
      contains_join hcard (tipCard_contains t).2.2.2⟩
  · intro t ht
    have hcard : tipCard t ∈ (filteredTips "all").map tipCard :=
      List.mem_map_of_mem tipCard ht
    exact ⟨contains_join hcard (tipCard_contains t).2.2.1,
      contains_join hcard (tipCard_contains t).2.2.2⟩

/-- Witness of C8 at the category `nutrition`: tips 1 and 7, in that order, and the title
of tip 7 is in the markup written. -/
theorem renderTips_category_subsequence_witness :
    "nutrition" ∈ tipCategories ∧
    (filteredTips "nutrition").map (fun t => t.id) = [1, 7] ∧
    (renderTips initialWorld "nutrition").tipsGrid =
      String.join ((filteredTips "nutrition").map tipCard) ∧
    Contains (renderTips initialWorld "nutrition").tipsGrid "Reduce Processed Sugar" :=
  ⟨by decide, by decide,
    (renderTips_category_subsequence initialWorld "nutrition" (by decide)).2.2.2.1,
    ((renderTips_category_subsequence initialWorld "nutrition" (by decide)).2.2.2.2.2.2.2.2.2.2.1
      { id := 7, category := "nutrition", emoji := "🍎", title := "Reduce Processed Sugar",
        body := "Cutting back on processed sugars can lower inflammation, improve dental health, stabilise energy levels, and reduce the risk of type 2 diabetes." }
      (by decide) rfl).1⟩

theorem formatService_length (slug : String) :
    (formatService slug).length = slug.length := by
  show (upperAtBoundaries false (replaceHyphens slug.data)).length = slug.data.length
  rw [upperAtBoundaries_length, replaceHyphens, List.length_map]

/-- C9: on a slug made of non-empty words of lowercase ASCII letters joined by single
hyphens, `formatService` returns the same words joined by single blanks, each with its
first letter upper-cased and every other character unchanged; the result is as long as
the slug. -/
theorem formatService_title_case (ws : List String) (hne : ws ≠ [])
    (hw : ∀ w ∈ ws, IsLowerWord w) :
    formatService (joinWords "-" ws) = joinWords " " (ws.map capitalize) ∧
    (formatService (joinWords "-" ws)).length = (joinWords "-" ws).length := by
  constructor
  · apply String.ext
    exact formatService_joinWords ws hne hw
  · exact formatService_length _

/-- Witness of C9 at the slug `general-checkup`. -/
theorem formatService_title_case_witness :
    joinWords "-" ["general", "checkup"] = "general-checkup" ∧
    joinWords " " (["general", "checkup"].map capitalize) = "General Checkup" ∧
    formatService (joinWords "-" ["general", "checkup"]) =
      joinWords " " (["general", "checkup"].map capitalize) :=
  ⟨by decide, by decide,
    (formatService_title_case ["general", "checkup"] (by decide)
      (by
        intro w hw
        simp only [List.mem_cons, List.mem_singleton, List.not_mem_nil, or_false] at hw
        rcases hw with rfl | rfl <;> exact ⟨by decide, by decide⟩)).1⟩

/-! ## Texts of the booking messages -/

theorem demoText_contains (data : BookingRecord) :
    Contains (demoText data) "Demo mode" ∧
    Contains (demoText data) data.first_name ∧
    Contains (demoText data) data.appointment_date ∧
    Contains (demoText data) data.appointment_time := by
  unfold demoText
  refine ⟨?_, ?_, ?_, ?_⟩
  · have h : Contains "✓ Demo mode — Appointment booked for " "Demo mode" :=
      ⟨"✓ ", " — Appointment booked for ", by decide⟩
    exact (((((h.append_right _).append_right _).append_right _).append_right _).append_right
      _).append_right _
  · exact (((((Contains.mid _ _ _).append_right _).append_right _).append_right _).append_right _)
  · exact (((Contains.mid _ _ _).append_right _).append_right _)
  · exact Contains.mid _ _ _

/-! ## Booking -/

theorem showMessage_className_success (text : String) :
    (showMessage "success" text).className = "form-msg success" := by
  show ("form-msg " ++ "success" : String) = "form-msg success"
  decide

theorem showMessage_className_error (text : String) :
    (showMessage "error" text).className = "form-msg error" := by
  show ("form-msg " ++ "error" : String) = "form-msg error"
  decide

/-- C1: with no gateway handle configured, `handleBooking` shows a message of type
`success` whose text contains "Demo mode", the trimmed first name, the appointment date
and the appointment time of the form; it calls no gateway operation and changes nothing
but the message box (session and handle included). -/
theorem handleBooking_demo_mode (w : World) (insertReply : Reply Unit)
    (reloadReply : QueryReply) (hnone : w.supabaseClient = none) :
    (handleBooking w insertReply reloadReply).bkMsg.className = "form-msg success" ∧
    (handleBooking w insertReply reloadReply).bkMsg.display = "block" ∧
    (handleBooking w insertReply reloadReply).bkMsg.textContent =
      "✓ Demo mode — Appointment booked for " ++ jsTrim w.bookingForm.bkFname ++ " on " ++
        w.bookingForm.bkDate ++ " at " ++ w.bookingForm.bkTime ++
        ". Connect Supabase to save to database." ∧
    Contains (handleBooking w insertReply reloadReply).bkMsg.textContent "Demo mode" ∧
    Contains (handleBooking w insertReply reloadReply).bkMsg.textContent
      (jsTrim w.bookingForm.bkFname) ∧
    Contains (handleBooking w insertReply reloadReply).bkMsg.textContent w.bookingForm.bkDate ∧
    Contains (handleBooking w insertReply reloadReply).bkMsg.textContent w.bookingForm.bkTime ∧
    (handleBooking w insertReply reloadReply).calls = w.calls ∧
    (handleBooking w insertReply reloadReply).currentUser = w.currentUser ∧
    (handleBooking w insertReply reloadReply).supabaseClient = w.supabaseClient ∧
    handleBooking w insertReply reloadReply =
      { w with bkMsg := (handleBooking w insertReply reloadReply).bkMsg } := by
  have hw : handleBooking w insertReply reloadReply =
      { w with bkMsg := showMessage "success" (demoText (bookingData w)) } := by
    simp only [handleBooking, hnone]
  have hc := demoText_contains (bookingData w)
  rw [hw]
  exact ⟨showMessage_className_success _, rfl, rfl, hc.1, hc.2.1, hc.2.2.1, hc.2.2.2, rfl, rfl, rfl, rfl⟩

/-- Witness of C1: the scenario of the specification (first name typed as " Ada "). -/
theorem handleBooking_demo_mode_witness :
    adaWorld.supabaseClient = none ∧
    jsTrim adaWorld.bookingForm.bkFname = "Ada" ∧
    (handleBooking adaWorld Reply.threw Reply.threw).bkMsg.textContent =
      "✓ Demo mode — Appointment booked for Ada on 2025-06-01 at 10:00. Connect Supabase to save to database." ∧
    Contains (handleBooking adaWorld Reply.threw Reply.threw).bkMsg.textContent
      (jsTrim adaWorld.bookingForm.bkFname) ∧
    (handleBooking adaWorld Reply.threw Reply.threw).calls = adaWorld.calls :=
  ⟨rfl, by decide, by decide,
    (handleBooking_demo_mode adaWorld Reply.threw Reply.threw rfl).2.2.2.2.1,
    (handleBooking_demo_mode adaWorld Reply.threw Reply.threw rfl).2.2.2.2.2.2.2.1⟩

theorem loadUserAppointments_calls (w : World) (h : Handle) (user : User) (reply : QueryReply)
    (hcfg : w.supabaseClient = some h) (huser : w.currentUser = some user) :
    (loadUserAppointments w reply).calls = w.calls ++
      [GatewayCall.select "appointments" "*" "user_id" user.id "appointment_date" true] := by
  unfold loadUserAppointments
  rw [hcfg, huser]
  rcases reply with (_ | data) | _ | _
  · rfl
  · dsimp only
    split <;> rfl
  · rfl
  · rfl

/-- C2: with a gateway handle configured and an insert that returns without error,
`handleBooking` resets the form; with a session active it runs `loadUserAppointments`
once, which issues exactly one query keyed by `user_id` (the session's id) after the
insert; with no session it issues the insert alone and leaves the user panel as it was. -/
theorem handleBooking_success_reload (w : World) (h : Handle) (reloadReply : QueryReply)
    (hcfg : w.supabaseClient = some h) :
    (handleBooking w (Reply.ok ()) reloadReply).bookingForm = w.bookingFormDefaults ∧
    (∀ user, w.currentUser = some user →
      handleBooking w (Reply.ok ()) reloadReply =
        bookingFinally (loadUserAppointments
          (bookingConfirmed (bookingSubmitting w) (bookingData w)) reloadReply) ∧
      (handleBooking w (Reply.ok ()) reloadReply).calls = w.calls ++
        [GatewayCall.insert "appointments" [bookingData w],
         GatewayCall.select "appointments" "*" "user_id" user.id "appointment_date" true] ∧
      (ownerQueries [GatewayCall.insert "appointments" [bookingData w],
         GatewayCall.select "appointments" "*" "user_id" user.id "appointment_date" true]).length
        = 1) ∧
    (w.currentUser = none →
      handleBooking w (Reply.ok ()) reloadReply =
        bookingFinally (bookingConfirmed (bookingSubmitting w) (bookingData w)) ∧
      (handleBooking w (Reply.ok ()) reloadReply).calls = w.calls ++
        [GatewayCall.insert "appointments" [bookingData w]] ∧
      ownerQueries [GatewayCall.insert "appointments" [bookingData w]] = [] ∧
      (handleBooking w (Reply.ok ()) reloadReply).uAppointments = w.uAppointments) := by
  have hsome : ∀ user, w.currentUser = some user →
      handleBooking w (Reply.ok ()) reloadReply =
        bookingFinally (loadUserAppointments
          (bookingConfirmed (bookingSubmitting w) (bookingData w)) reloadReply) := by
    intro user hu
    have hu2 : (bookingConfirmed (bookingSubmitting w) (bookingData w)).currentUser =
        some user := hu
    simp only [handleBooking, hcfg, bookingOutcome, hu2]
  have hnone : w.currentUser = none →
      handleBooking w (Reply.ok ()) reloadReply =
        bookingFinally (bookingConfirmed (bookingSubmitting w) (bookingData w)) := by
    intro hu
    have hu2 : (bookingConfirmed (bookingSubmitting w) (bookingData w)).currentUser = none := hu
    simp only [handleBooking, hcfg, bookingOutcome, hu2]
  refine ⟨?_, ?_, ?_⟩
  · cases hu : w.currentUser with
    | none => rw [hnone hu]; rfl
    | some user =>
      rw [hsome user hu]
      show (loadUserAppointments _ reloadReply).bookingForm = _
      have hc2 : (bookingConfirmed (bookingSubmitting w) (bookingData w)).supabaseClient =
          some h := hcfg
      have hu2 : (bookingConfirmed (bookingSubmitting w) (bookingData w)).currentUser =
          some user := hu
      simp only [loadUserAppointments, hc2, hu2]
      rcases reloadReply with (_ | data) | _ | _
      · rfl
      · dsimp only
        split <;> rfl
      · rfl
      · rfl
  · intro user hu
    refine ⟨hsome user hu, ?_, ?_⟩
    · rw [hsome user hu]
      show (loadUserAppointments _ reloadReply).calls = _
      rw [loadUserAppointments_calls (bookingConfirmed (bookingSubmitting w) (bookingData w))
        h user reloadReply hcfg hu]
      simp [bookingSubmitting, bookingConfirmed]
    · simp [ownerQueries]
  · intro hu
    refine ⟨hnone hu, ?_, ?_, ?_⟩
    · rw [hnone hu]; rfl
    · simp [ownerQueries]
    · rw [hnone hu]; rfl

/-- Witness of C2: a signed-in booking whose insert and reload both succeed. -/
theorem handleBooking_success_reload_witness :
    signedInWorld.supabaseClient = some { url := "https://example.supabase.co", key := "anon" } ∧
    signedInWorld.currentUser = some adaUser ∧
    (handleBooking signedInWorld (Reply.ok ()) (Reply.ok none)).calls =
      [GatewayCall.insert "appointments" [bookingData signedInWorld],
       GatewayCall.select "appointments" "*" "user_id" "u-1" "appointment_date" true] ∧
    (handleBooking signedInWorld (Reply.ok ()) (Reply.ok none)).bookingForm = emptyForm :=
  ⟨rfl, rfl,
    ((handleBooking_success_reload signedInWorld _ (Reply.ok none) rfl).2.1 adaUser rfl).2.1,
    (handleBooking_success_reload signedInWorld _ (Reply.ok none) rfl).1⟩

/-- C3, as stated, fails: the text shown for a returned error is not the gateway's
message itself. -/
theorem handleBooking_error_text_differs :
    (handleBooking connectedWorld (Reply.error "duplicate key") Reply.threw).bkMsg.textContent
      ≠ "duplicate key" := by
  decide

/-- C3, amended: when the insert returns an error value carrying message `m`, the message
shown has type `error` and its text is "Booking failed: " followed by `m` unaltered; the
form is not cleared and no further gateway call is made. -/
theorem handleBooking_error_prefixed (w : World) (h : Handle) (m : String)
    (reloadReply : QueryReply) (hcfg : w.supabaseClient = some h) :
    (handleBooking w (Reply.error m) reloadReply).bkMsg.className = "form-msg error" ∧
    (handleBooking w (Reply.error m) reloadReply).bkMsg.textContent = "Booking failed: " ++ m ∧
    Contains (handleBooking w (Reply.error m) reloadReply).bkMsg.textContent m ∧
    (handleBooking w (Reply.error m) reloadReply).bookingForm = w.bookingForm ∧
    (handleBooking w (Reply.error m) reloadReply).calls = w.calls ++
      [GatewayCall.insert "appointments" [bookingData w]] := by
  have hw : handleBooking w (Reply.error m) reloadReply =
      { bookingSubmitting w with
        bkMsg := showMessage "error" ("Booking failed: " ++ m)
        bkSubmit := { disabled := false, textContent := "Confirm Appointment" } } := by
    simp only [handleBooking, hcfg, bookingOutcome, bookingFinally]
  rw [hw]
  exact ⟨showMessage_className_error _, rfl, Contains.tail _ _, rfl, rfl⟩

/-- Witness of C3 amended: a rejected insert on the connected page. -/
theorem handleBooking_error_prefixed_witness :
    connectedWorld.supabaseClient = some { url := "https://example.supabase.co", key := "anon" } ∧
    (handleBooking connectedWorld (Reply.error "duplicate key") Reply.threw).bkMsg.textContent =
      "Booking failed: " ++ "duplicate key" :=
  ⟨rfl, (handleBooking_error_prefixed connectedWorld _ "duplicate key" Reply.threw rfl).2.1⟩

/-! ## Lookup, reschedule, cancel -/

theorem lookupAppointments_calls (w : World) (reply : QueryReply) :
    (lookupAppointments w reply).calls = w.calls ++ lookupCalls w := by
  unfold lookupAppointments lookupCalls
  by_cases he : jsTrim w.manageEmail = ""
  · simp [he]
  · cases hc : w.supabaseClient with
    | none => simp [he]
    | some h =>
      simp only [he, if_false]
      rcases reply with (_ | data) | _ | _
      · rfl
      · dsimp only
        split <;> rfl
      · rfl
      · rfl

theorem lookupCalls_no_update (w : World) : (lookupCalls w).filter isUpdate = [] := by
  unfold lookupCalls
  split
  · rfl
  · split <;> rfl

theorem answered_eq_none {a : Option String} (h : a = none ∨ a = some "") :
    answered a = none := by
  rcases h with rfl | rfl <;> rfl

/-- C4: when the answer to the date prompt or to the time prompt is missing or empty,
`rescheduleAppointment` returns the state it was given: no update is issued, the lookup
is not re-run, the displayed list and the session are unchanged. -/
theorem rescheduleAppointment_missing_answer (w : World) (id : String)
    (newDate newTime : Option String) (updateReply : Reply Unit) (lookupReply : QueryReply)
    (h : (newDate = none ∨ newDate = some "") ∨ (newTime = none ∨ newTime = some "")) :
    rescheduleAppointment w id newDate newTime updateReply lookupReply = w ∧
    (rescheduleAppointment w id newDate newTime updateReply lookupReply).calls = w.calls ∧
    (rescheduleAppointment w id newDate newTime updateReply lookupReply).appointmentsList =
      w.appointmentsList ∧
    (rescheduleAppointment w id newDate newTime updateReply lookupReply).currentUser =
      w.currentUser ∧
    (rescheduleAppointment w id newDate newTime updateReply lookupReply).supabaseClient =
      w.supabaseClient := by
  have hw : rescheduleAppointment w id newDate newTime updateReply lookupReply = w := by
    unfold rescheduleAppointment
    rcases h with h | h
    · rw [answered_eq_none h]
    · rw [answered_eq_none h]
      cases answered newDate <;> rfl
  rw [hw]
  exact ⟨rfl, rfl, rfl, rfl, rfl⟩

/-- Witness of C4: a date is given, the time prompt is answered with the empty string. -/
theorem rescheduleAppointment_missing_answer_witness :
    rescheduleAppointment connectedWorld "7" (some "2025-07-01") (some "") (Reply.ok ())
      (Reply.ok none) = connectedWorld :=
  (rescheduleAppointment_missing_answer connectedWorld "7" (some "2025-07-01") (some "")
    (Reply.ok ()) (Reply.ok none) (Or.inr (Or.inr rfl))).1

/-- C5: without an affirmative answer `cancelAppointment` returns the state it was given
(no update, no lookup).  In every case the calls it adds contain at most one update, and
that update is on `appointments`, keyed by `id`, and sets `status` to `cancelled` and
nothing else; with an affirmative answer and a configured gateway it is issued. -/
theorem cancelAppointment_updates (w : World) (id : String) (confirmed : Bool)
    (updateReply : Reply Unit) (lookupReply : QueryReply) :
    (confirmed = false → cancelAppointment w id confirmed updateReply lookupReply = w) ∧
    ∃ added : List GatewayCall,
      (cancelAppointment w id confirmed updateReply lookupReply).calls = w.calls ++ added ∧
      (added.filter isUpdate = [] ∨
        added.filter isUpdate =
          [GatewayCall.update "appointments" [("status", "cancelled")] "id" id]) ∧
      (confirmed = true → w.supabaseClient ≠ none →
        added.filter isUpdate =
          [GatewayCall.update "appointments" [("status", "cancelled")] "id" id]) := by
  constructor
  · intro hc
    simp [cancelAppointment, hc]
  · cases confirmed with
    | false => exact ⟨[], by simp [cancelAppointment], Or.inl rfl, by simp⟩
    | true =>
      cases hs : w.supabaseClient with
      | none => exact ⟨[], by simp [cancelAppointment, hs], Or.inl rfl, by simp⟩
      | some h =>
        rcases updateReply with _ | m | _
        · refine ⟨GatewayCall.update "appointments" [("status", "cancelled")] "id" id ::
            lookupCalls w, ?_, Or.inr ?_, fun _ _ => ?_⟩
          · simp only [cancelAppointment, hs, Bool.not_true, Bool.false_eq_true, if_false]
            rw [lookupAppointments_calls]
            simp [lookupCalls, hs]
          · simp [List.filter_cons, isUpdate, lookupCalls_no_update]
          · simp [List.filter_cons, isUpdate, lookupCalls_no_update]
        · exact ⟨[GatewayCall.update "appointments" [("status", "cancelled")] "id" id],
            by simp [cancelAppointment, hs], Or.inr rfl, fun _ _ => rfl⟩
        · exact ⟨[GatewayCall.update "appointments" [("status", "cancelled")] "id" id],
            by simp [cancelAppointment, hs], Or.inr rfl, fun _ _ => rfl⟩

/-- Witness of C5: the dialog is dismissed on the connected page. -/
theorem cancelAppointment_updates_witness :
    cancelAppointment connectedWorld "7" false (Reply.ok ()) (Reply.ok none) = connectedWorld :=
  (cancelAppointment_updates connectedWorld "7" false (Reply.ok ()) (Reply.ok none)).1 rfl

theorem noAppointmentsFound_not_error : ¬ IsLookupError noAppointmentsFound := by
  rintro (h | ⟨m, h⟩)
  · revert h
    decide
  · have h2 := congrArg (fun s : String => s.data.take 18) h
    simp only [String.data_append, String.append_assoc] at h2
    revert h2
    simp [noAppointmentsFound]

/-- C6: for a non-empty trimmed email and a configured gateway, a query that completes
without error and returns no record (absent or empty data) makes `lookupAppointments`
show the "No appointments found" state, which is not an error state; the query issued is
the one by email. -/
theorem lookupAppointments_empty_result (w : World) (h : Handle) (reply : QueryReply)
    (hemail : jsTrim w.manageEmail ≠ "") (hcfg : w.supabaseClient = some h)
    (hreply : reply = Reply.ok none ∨ reply = Reply.ok (some [])) :
    (lookupAppointments w reply).appointmentsList =
      "<p class=\"muted\">No appointments found for this email.</p>" ∧
    ¬ IsLookupError (lookupAppointments w reply).appointmentsList ∧
    (lookupAppointments w reply).calls = w.calls ++
      [GatewayCall.select "appointments" "*" "email" (jsTrim w.manageEmail)
        "appointment_date" true] := by
  have hl : (lookupAppointments w reply).appointmentsList = noAppointmentsFound := by
    rcases hreply with rfl | rfl <;> simp [lookupAppointments, hemail, hcfg, noAppointmentsFound]
  refine ⟨hl, ?_, ?_⟩
  · rw [hl]
    exact noAppointmentsFound_not_error
  · rw [lookupAppointments_calls]
    simp [lookupCalls, hemail, hcfg]

/-- Witness of C6: the connected page, the store answering with an empty sequence. -/
theorem lookupAppointments_empty_result_witness :
    jsTrim connectedWorld.manageEmail ≠ "" ∧
    (lookupAppointments connectedWorld (Reply.ok (some []))).appointmentsList =
      "<p class=\"muted\">No appointments found for this email.</p>" :=
  ⟨by decide,
    (lookupAppointments_empty_result connectedWorld _ (Reply.ok (some [])) (by decide) rfl
      (Or.inr rfl)).1⟩

theorem lookupRow_contains (apt : Appointment) :
    Contains (lookupRow apt) apt.id ∧
    Contains (lookupRow apt) (formatService apt.service) ∧
    Contains (lookupRow apt) apt.appointment_date ∧
    Contains (lookupRow apt) apt.appointment_time ∧
    Contains (lookupRow apt) apt.status := by
  unfold lookupRow
  refine ⟨?_, ?_, ?_, ?_, ?_⟩
  · exact Contains.mid _ _ _
  · iterate 10 apply Contains.append_right
    exact Contains.mid _ _ _
  · iterate 8 apply Contains.append_right
    exact Contains.mid _ _ _
  · iterate 6 apply Contains.append_right
    exact Contains.mid _ _ _
  · iterate 4 apply Contains.append_right
    exact Contains.mid _ _ _

/-- C7: for a non-empty sequence of records returned without error by the query by
email, the markup `lookupAppointments` writes is the concatenation of one row per
record, in the order of the gateway's answer: there are as many rows as records and the
i-th row is the row of the i-th record, carrying its id, its service name (as formatted
by `formatService`), its date, its time and its status. -/
theorem lookupAppointments_rows_in_order (w : World) (h : Handle) (data : List Appointment)
    (hemail : jsTrim w.manageEmail ≠ "") (hcfg : w.supabaseClient = some h)
    (hne : data ≠ []) :
    (lookupAppointments w (Reply.ok (some data))).appointmentsList =
      String.join (data.map lookupRow) ∧
    (data.map lookupRow).length = data.length ∧
    ∀ (i : Nat) (hi : i < data.length),
      (data.map lookupRow)[i]? = some (lookupRow data[i]) ∧
      Contains (lookupRow data[i]) data[i].id ∧
      Contains (lookupRow data[i]) (formatService data[i].service) ∧
      Contains (lookupRow data[i]) data[i].appointment_date ∧
      Contains (lookupRow data[i]) data[i].appointment_time ∧
      Contains (lookupRow data[i]) data[i].status := by
  refine ⟨?_, List.length_map _ _, ?_⟩
  · have hlen : data.length ≠ 0 := by
      intro h0
      exact hne (List.length_eq_zero.mp h0)
    simp [lookupAppointments, hemail, hcfg, hlen]
  · intro i hi
    refine ⟨?_, lookupRow_contains _⟩
    simp [hi]

/-- Witness of C7: the scenario of the specification, two records dated 2025-05-01 and
2025-04-01 in that order are rendered in that order. -/
theorem lookupAppointments_rows_in_order_witness :
    (lookupAppointments connectedWorld
      (Reply.ok (some [sampleAppointment "a1" "2025-05-01",
        sampleAppointment "a2" "2025-04-01"]))).appointmentsList =
      String.join ([sampleAppointment "a1" "2025-05-01",
        sampleAppointment "a2" "2025-04-01"].map lookupRow) :=
  (lookupAppointments_rows_in_order connectedWorld _
    [sampleAppointment "a1" "2025-05-01", sampleAppointment "a2" "2025-04-01"]
    (by decide) rfl (by simp)).1

/-! ## Dates written to the gateway -/

/-- C10 fails on `rescheduleAppointment`: with a configured gateway, answering the
prompts with the date 2000-01-01 and the time 10:00 issues an update that writes that
date, which precedes every day on which the module can be run. -/
theorem rescheduleAppointment_writes_past_date :
    (rescheduleAppointment connectedWorld "7" (some "2000-01-01") (some "10:00")
      (Reply.error "offline") Reply.threw).calls =
      [GatewayCall.update "appointments"
        [("appointment_date", "2000-01-01"), ("appointment_time", "10:00"),
         ("status", "rescheduled")] "id" "7"] ∧
    datesWritten (GatewayCall.update "appointments"
        [("appointment_date", "2000-01-01"), ("appointment_time", "10:00"),
         ("status", "rescheduled")] "id" "7") = ["2000-01-01"] ∧
    "2000-01-01".data < "2025-06-01".data := by
  decide

/-! ## The submit button during a booking -/

theorem loadUserAppointments_submitAtInsert (w : World) (reply : QueryReply) :
    (loadUserAppointments w reply).submitAtInsert = w.submitAtInsert := by
  unfold loadUserAppointments
  repeat' split
  all_goals rfl

theorem loadUserAppointments_trace (w : World) (reply : QueryReply) :
    (loadUserAppointments w reply).submitAtInsert = w.submitAtInsert ∧
    ∃ added : List GatewayCall,
      (loadUserAppointments w reply).calls = w.calls ++ added ∧
      ∀ c ∈ added, isInsert c = false := by
  refine ⟨loadUserAppointments_submitAtInsert w reply, ?_⟩
  cases hc : w.supabaseClient with
  | none =>
    exact ⟨[], by simp [loadUserAppointments, hc], fun c hc => absurd hc (List.not_mem_nil c)⟩
  | some h =>
    cases hu : w.currentUser with
    | none =>
      exact ⟨[], by simp [loadUserAppointments, hc, hu],
        fun c hc => absurd hc (List.not_mem_nil c)⟩
    | some user =>
      refine ⟨[GatewayCall.select "appointments" "*" "user_id" user.id "appointment_date" true],
        loadUserAppointments_calls w h user reply hc hu, ?_⟩
      intro c hmem
      rw [List.mem_singleton] at hmem
      rw [hmem]
      rfl

theorem bookingOutcome_trace (w : World) (data : BookingRecord) (insertReply : Reply Unit)
    (reloadReply : QueryReply) :
    (bookingOutcome w data insertReply reloadReply).submitAtInsert = w.submitAtInsert ∧
    ∃ added : List GatewayCall,
      (bookingOutcome w data insertReply reloadReply).calls = w.calls ++ added ∧
      ∀ c ∈ added, isInsert c = false := by
  unfold bookingOutcome
  split
  · exact ⟨rfl, [], (List.append_nil _).symm, fun c hc => absurd hc (List.not_mem_nil c)⟩
  · dsimp only
    split
    · exact loadUserAppointments_trace (bookingConfirmed w data) reloadReply
    · exact ⟨rfl, [], (List.append_nil _).symm, fun c hc => absurd hc (List.not_mem_nil c)⟩
  · exact ⟨rfl, [], (List.append_nil _).symm, fun c hc => absurd hc (List.not_mem_nil c)⟩

/-- C12: with a gateway handle configured, `handleBooking` issues exactly one insert,
and the submit button was disabled with label "Booking…" at the moment that insert was
issued (the output records the button's state at every insert in `submitAtInsert`);
when `handleBooking` finishes the button is enabled with label "Confirm Appointment",
whether the insert succeeded, returned an error, or threw. -/
theorem handleBooking_button_cycle (w : World) (h : Handle) (insertReply : Reply Unit)
    (reloadReply : QueryReply) (hcfg : w.supabaseClient = some h) :
    (handleBooking w insertReply reloadReply).submitAtInsert =
      w.submitAtInsert ++ [{ disabled := true, textContent := "Booking…" }] ∧
    (∃ rest : List GatewayCall,
      (handleBooking w insertReply reloadReply).calls =
        w.calls ++ GatewayCall.insert "appointments" [bookingData w] :: rest ∧
      ∀ c ∈ rest, isInsert c = false) ∧
    (bookingSubmitting w).bkSubmit = { disabled := true, textContent := "Booking…" } ∧
    (bookingSubmitting w).calls =
      w.calls ++ [GatewayCall.insert "appointments" [bookingData w]] ∧
    handleBooking w insertReply reloadReply =
      bookingFinally
        (bookingOutcome (bookingSubmitting w) (bookingData w) insertReply reloadReply) ∧
    (handleBooking w insertReply reloadReply).bkSubmit =
      { disabled := false, textContent := "Confirm Appointment" } ∧
    (handleBooking w (Reply.ok ()) reloadReply).bkSubmit =
      { disabled := false, textContent := "Confirm Appointment" } ∧
    (∀ m, (handleBooking w (Reply.error m) reloadReply).bkSubmit =
      { disabled := false, textContent := "Confirm Appointment" }) ∧
    (handleBooking w Reply.threw reloadReply).bkSubmit =
      { disabled := false, textContent := "Confirm Appointment" } := by
  have hrun : ∀ r : Reply Unit, handleBooking w r reloadReply =
      bookingFinally (bookingOutcome (bookingSubmitting w) (bookingData w) r reloadReply) := by
    intro r
    simp only [handleBooking, hcfg]
  have hbtn : ∀ r : Reply Unit, (handleBooking w r reloadReply).bkSubmit =
      { disabled := false, textContent := "Confirm Appointment" } := by
    intro r
    rw [hrun r]
    rfl
  obtain ⟨hsnap, added, hcalls, hadded⟩ :=
    bookingOutcome_trace (bookingSubmitting w) (bookingData w) insertReply reloadReply
  refine ⟨?_, ⟨added, ?_, hadded⟩, rfl, rfl, hrun insertReply, hbtn insertReply, hbtn _,
    fun m => hbtn _, hbtn _⟩
  · rw [hrun insertReply]
    show (bookingOutcome (bookingSubmitting w) (bookingData w) insertReply
      reloadReply).submitAtInsert = _
    rw [hsnap]
    rfl
  · rw [hrun insertReply]
    show (bookingOutcome (bookingSubmitting w) (bookingData w) insertReply reloadReply).calls = _
    rw [hcalls]
    show (w.calls ++ [GatewayCall.insert "appointments" [bookingData w]]) ++ added = _
    simp

/-- Witness of C12: an insert that throws on the connected page. -/
theorem handleBooking_button_cycle_witness :
    connectedWorld.supabaseClient = some { url := "https://example.supabase.co", key := "anon" } ∧
    (handleBooking connectedWorld Reply.threw Reply.threw).submitAtInsert =
      [{ disabled := true, textContent := "Booking…" }] ∧
    (bookingSubmitting connectedWorld).bkSubmit = { disabled := true, textContent := "Booking…" } ∧
    (handleBooking connectedWorld Reply.threw Reply.threw).bkSubmit =
      { disabled := false, textContent := "Confirm Appointment" } :=
  ⟨rfl, (handleBooking_button_cycle connectedWorld _ Reply.threw Reply.threw rfl).1,
    (handleBooking_button_cycle connectedWorld _ Reply.threw Reply.threw rfl).2.2.1,
    (handleBooking_button_cycle connectedWorld _ Reply.threw Reply.threw rfl).2.2.2.2.2.1⟩

/-! ## What the handlers leave alone

Each lemma of this section says that a handler leaves three fields as they were: the
handle, the session and the count of unhandled rejections. -/

theorem loadUserAppointments_frame (w : World) (reply : QueryReply) :
    (loadUserAppointments w reply).supabaseClient = w.supabaseClient ∧
    (loadUserAppointments w reply).currentUser = w.currentUser ∧
    (loadUserAppointments w reply).unhandledRejections = w.unhandledRejections := by
  unfold loadUserAppointments
  repeat' split
  all_goals exact ⟨rfl, rfl, rfl⟩

theorem lookupAppointments_frame (w : World) (reply : QueryReply) :
    (lookupAppointments w reply).supabaseClient = w.supabaseClient ∧
    (lookupAppointments w reply).currentUser = w.currentUser ∧
    (lookupAppointments w reply).unhandledRejections = w.unhandledRejections := by
  unfold lookupAppointments
  dsimp only
  split
  · exact ⟨rfl, rfl, rfl⟩
  · split
    · exact ⟨rfl, rfl, rfl⟩
    · split
      · exact ⟨rfl, rfl, rfl⟩
      · exact ⟨rfl, rfl, rfl⟩
      · exact ⟨rfl, rfl, rfl⟩
      · split <;> exact ⟨rfl, rfl, rfl⟩

theorem showUserPanel_frame (initialOf : String → String) (w : World) (user : User)
    (reply : QueryReply) :
    (showUserPanel initialOf w user reply).supabaseClient = w.supabaseClient ∧
    (showUserPanel initialOf w user reply).currentUser = w.currentUser ∧
    (showUserPanel initialOf w user reply).unhandledRejections = w.unhandledRejections := by
  unfold showUserPanel
  exact loadUserAppointments_frame _ reply

theorem handleBooking_frame (w : World) (insertReply : Reply Unit) (reloadReply : QueryReply) :
    (handleBooking w insertReply reloadReply).supabaseClient = w.supabaseClient ∧
    (handleBooking w insertReply reloadReply).currentUser = w.currentUser ∧
    (handleBooking w insertReply reloadReply).unhandledRejections = w.unhandledRejections := by
  unfold handleBooking
  split
  · exact ⟨rfl, rfl, rfl⟩
  · unfold bookingFinally bookingOutcome
    split
    · exact ⟨rfl, rfl, rfl⟩
    · dsimp only
      split
      · exact loadUserAppointments_frame _ reloadReply
      · exact ⟨rfl, rfl, rfl⟩
    · exact ⟨rfl, rfl, rfl⟩

theorem rescheduleAppointment_frame (w : World) (id : String) (newDate newTime : Option String)
    (updateReply : Reply Unit) (lookupReply : QueryReply) :
    (rescheduleAppointment w id newDate newTime updateReply lookupReply).supabaseClient =
      w.supabaseClient ∧
    (rescheduleAppointment w id newDate newTime updateReply lookupReply).currentUser =
      w.currentUser ∧
    (rescheduleAppointment w id newDate newTime updateReply lookupReply).unhandledRejections =
      w.unhandledRejections := by
  unfold rescheduleAppointment
  split
  · split
    · exact ⟨rfl, rfl, rfl⟩
    · exact lookupAppointments_frame _ lookupReply
    · exact ⟨rfl, rfl, rfl⟩
  · exact ⟨rfl, rfl, rfl⟩

theorem cancelAppointment_frame (w : World) (id : String) (confirmed : Bool)
    (updateReply : Reply Unit) (lookupReply : QueryReply) :
    (cancelAppointment w id confirmed updateReply lookupReply).supabaseClient =
      w.supabaseClient ∧
    (cancelAppointment w id confirmed updateReply lookupReply).currentUser = w.currentUser ∧
    (cancelAppointment w id confirmed updateReply lookupReply).unhandledRejections =
      w.unhandledRejections := by
  unfold cancelAppointment
  split
  · exact ⟨rfl, rfl, rfl⟩
  · split
    · exact ⟨rfl, rfl, rfl⟩
    · split
      · exact ⟨rfl, rfl, rfl⟩
      · exact lookupAppointments_frame _ lookupReply
      · exact ⟨rfl, rfl, rfl⟩

theorem Advances.of_frame {w w' : World}
    (h : w'.supabaseClient = w.supabaseClient ∧ w'.currentUser = w.currentUser ∧
      w'.unhandledRejections = w.unhandledRejections) : Advances w w' :=
  ⟨fun hw => by rw [h.1]; exact hw, Or.inl h.2.1⟩

theorem Advances.of_handle {w w' : World} (h : Handle) (hw : w'.supabaseClient = some h) :
    Advances w w' :=
  ⟨fun _ => by rw [hw]; exact Option.some_ne_none h, Or.inr (Or.inr (by rw [hw]; exact Option.some_ne_none h))⟩

theorem setStatus_showUserPanel_client (initialOf : String → String) (w : World) (user : User)
    (reply : QueryReply) (state text : String) :
    (setStatus (showUserPanel initialOf w user reply) state text).supabaseClient =
      w.supabaseClient :=
  (showUserPanel_frame initialOf w user reply).1

theorem connectSupabase_advances (initialOf : String → String) (w : World) (createOk : Bool)
    (sessionReply : Reply (Option User)) (reloadReply : QueryReply) :
    Advances w (connectSupabase initialOf w createOk sessionReply reloadReply) := by
  unfold connectSupabase
  dsimp only
  split
  · exact Advances.of_frame ⟨rfl, rfl, rfl⟩
  · split
    · exact Advances.of_frame ⟨rfl, rfl, rfl⟩
    · split
      · exact Advances.of_handle _ (setStatus_showUserPanel_client _ _ _ _ _ _)
      · exact Advances.of_handle _ rfl
      · exact Advances.of_handle _ rfl
      · exact Advances.of_handle _ rfl

theorem handleLogin_advances (initialOf : String → String) (w : World)
    (signInReply : Reply User) (reloadReply : QueryReply) :
    Advances w (handleLogin initialOf w signInReply reloadReply) := by
  unfold handleLogin
  split
  · exact Advances.of_frame ⟨rfl, rfl, rfl⟩
  · next h hcfg =>
    dsimp only
    split
    · exact Advances.of_frame ⟨rfl, rfl, rfl⟩
    · exact Advances.of_handle h
        ((setStatus_showUserPanel_client _ _ _ _ _ _).trans hcfg)
    · exact Advances.of_frame ⟨rfl, rfl, rfl⟩

theorem handleSignup_advances (initialOf : String → String) (w : World)
    (signUpReply : Reply SignUpResult) (signInReply : Reply User) (reloadReply : QueryReply) :
    Advances w (handleSignup initialOf w signUpReply signInReply reloadReply) := by
  unfold handleSignup
  split
  · exact Advances.of_frame ⟨rfl, rfl, rfl⟩
  · next h hcfg =>
    dsimp only
    split
    · exact Advances.of_frame ⟨rfl, rfl, rfl⟩
    · exact Advances.of_handle h
        ((setStatus_showUserPanel_client _ _ _ _ _ _).trans hcfg)
    · split
      · exact Advances.of_frame ⟨rfl, rfl, rfl⟩
      · exact Advances.of_handle h
          ((setStatus_showUserPanel_client _ _ _ _ _ _).trans hcfg)
      · exact Advances.of_frame ⟨rfl, rfl, rfl⟩
    · exact Advances.of_frame ⟨rfl, rfl, rfl⟩

theorem signOut_advances (w : World) (reply : Reply Unit) : Advances w (signOut w reply) := by
  unfold signOut
  split
  · exact Advances.of_frame ⟨rfl, rfl, rfl⟩
  · next h hcfg =>
    dsimp only
    split
    · exact Advances.of_handle h hcfg
    · exact Advances.of_handle h hcfg
    · exact Advances.of_handle h hcfg

theorem step_advances (initialOf : String → String) (w : World) (op : Op) :
    Advances w (step initialOf w op) := by
  cases op with
  | connect sbUrl sbKey createOk sessionReply reloadReply =>
    exact connectSupabase_advances initialOf { w with sbUrl := sbUrl, sbKey := sbKey }
      createOk sessionReply reloadReply
  | book form insertReply reloadReply =>
    exact Advances.of_frame (handleBooking_frame _ insertReply reloadReply)
  | lookup manageEmail reply =>
    exact Advances.of_frame (lookupAppointments_frame _ reply)
  | reschedule id newDate newTime updateReply lookupReply =>
    exact Advances.of_frame (rescheduleAppointment_frame w id newDate newTime updateReply lookupReply)
  | cancel id confirmed updateReply lookupReply =>
    exact Advances.of_frame (cancelAppointment_frame w id confirmed updateReply lookupReply)
  | login loginEmail loginPass signInReply reloadReply =>
    exact handleLogin_advances initialOf
      { w with loginEmail := loginEmail, loginPass := loginPass } signInReply reloadReply
  | signup sigEmail sigPass sigFname sigLname signUpReply signInReply reloadReply =>
    exact handleSignup_advances initialOf
      { w with sigEmail := sigEmail, sigPass := sigPass, sigFname := sigFname,
               sigLname := sigLname }
      signUpReply signInReply reloadReply
  | signOut reply => exact signOut_advances w reply

theorem run_append (initialOf : String → String) (w : World) (before after : List Op) :
    run initialOf w (before ++ after) = run initialOf (run initialOf w before) after := by
  simp [run, List.foldl_append]

theorem run_keeps_handle (initialOf : String → String) (ops : List Op) (w : World)
    (hw : w.supabaseClient ≠ none) : (run initialOf w ops).supabaseClient ≠ none := by
  induction ops generalizing w with
  | nil => exact hw
  | cons op ops ih => exact ih _ ((step_advances initialOf w op).1 hw)

theorem run_keeps_invariant (initialOf : String → String) (ops : List Op) (w : World)
    (hw : SessionHasHandle w) : SessionHasHandle (run initialOf w ops) := by
  induction ops generalizing w with
  | nil => exact hw
  | cons op ops ih =>
    apply ih
    intro hu
    obtain ⟨hmono, hsame | hnone | hcfg⟩ := step_advances initialOf w op
    · exact hmono (hw (by rw [← hsame]; exact hu))
    · exact absurd hnone hu
    · exact hcfg

/-! ## Session and handle over sequences of operations -/

/-- C13: starting from a state with no session (the initial state has neither session
nor handle), after any sequence of `connectSupabase`, `handleBooking`,
`lookupAppointments`, `rescheduleAppointment`, `cancelAppointment`, `handleLogin`,
`handleSignup` and `signOut` with arbitrary inputs and gateway answers, an active session
comes with a configured handle; and once the handle is configured at some point of the
sequence it is still configured at the end. -/
theorem session_needs_handle (initialOf : String → String) (w0 : World)
    (huser : w0.currentUser = none) (ops : List Op) :
    ((run initialOf w0 ops).currentUser ≠ none →
      (run initialOf w0 ops).supabaseClient ≠ none) ∧
    ∀ before after : List Op, ops = before ++ after →
      (run initialOf w0 before).supabaseClient ≠ none →
      (run initialOf w0 ops).supabaseClient ≠ none := by
  constructor
  · exact run_keeps_invariant initialOf ops w0 (fun hu => absurd huser hu)
  · intro before after hops hset
    rw [hops, run_append]
    exact run_keeps_handle initialOf after _ hset

/-- Witness of C13: from the initial state, connecting and then signing in leaves a
session under a configured handle, and signing out afterwards keeps the handle. -/
theorem session_needs_handle_witness :
    initialWorld.supabaseClient = none ∧ initialWorld.currentUser = none ∧
    (run asciiInitial initialWorld
      [Op.connect "https://example.supabase.co" "anon" true (Reply.ok none) Reply.threw,
       Op.login "ada@example.org" "secret" (Reply.ok adaUser) (Reply.ok none)]).currentUser =
      some adaUser ∧
    (run asciiInitial initialWorld
      [Op.connect "https://example.supabase.co" "anon" true (Reply.ok none) Reply.threw,
       Op.login "ada@example.org" "secret" (Reply.ok adaUser) (Reply.ok none)]).supabaseClient
      ≠ none :=
  ⟨rfl, rfl, by decide,
    (session_needs_handle asciiInitial initialWorld rfl
      [Op.connect "https://example.supabase.co" "anon" true (Reply.ok none) Reply.threw,
       Op.login "ada@example.org" "secret" (Reply.ok adaUser) (Reply.ok none)]).1
      (by decide)⟩

/-! ## Failures of remote calls -/

/-- C11 fails on `signOut`: with a session active and a configured gateway, when
`auth.signOut()` is rejected the function's promise is rejected with no handler, the
session is still set and nothing on the page changes (no message box, alert or status
text is written).  The same holds for the `getSession()` promise of `connectSupabase`.
By contrast `handleLogin` turns a rejected sign-in into a displayed message. -/
theorem signOut_rejection_unhandled :
    signOut signedInWorld Reply.threw =
      { signedInWorld with calls := [GatewayCall.signOut], unhandledRejections := 1 } ∧
    (signOut signedInWorld Reply.threw).unhandledRejections = 1 ∧
    (signOut signedInWorld Reply.threw).currentUser = some adaUser ∧
    (signOut signedInWorld Reply.threw).alerts = [] ∧
    (connectSupabase asciiInitial
      { initialWorld with sbUrl := "https://example.supabase.co", sbKey := "anon" }
      true Reply.threw Reply.threw).unhandledRejections = 1 ∧
    (handleLogin asciiInitial signedInWorld Reply.threw Reply.threw).unhandledRejections = 0 ∧
    (handleLogin asciiInitial signedInWorld Reply.threw Reply.threw).loginMsg.textContent =
      "An unexpected error occurred." := by
  decide

end MediHealth
